import Mathlib

/-!
Verification of the frame-header subsystem (`src/frame/header.rs`) of a
yamux-style stream multiplexer.  The Rust source is shallowly embedded:
machine integers (`u8`, `u16`, `u32`) become `Nat` (no operation of this
module can overflow: the only arithmetic is bitwise `&`/`|` on values that
stay inside the original width), Rust structs become Lean structures, the
phantom-typed `Header<T>` becomes a Lean structure with a phantom type
parameter, and `&mut self` flag setters become functions from headers to
headers.
-/

/-- Frame-kind discriminant (`enum Type` in the source; `Type` is reserved
in Lean, so the type is named `Typ` like the field that holds it). -/
inductive Typ where
  | data
  | windowUpdate
  | ping
  | goAway
deriving DecidableEq, Repr

/-- `struct Version(pub u8)`. -/
structure Version where
  val : Nat
deriving DecidableEq, Repr

/-- `struct Len(pub u32)`. -/
structure Len where
  val : Nat
deriving DecidableEq, Repr

/-- `struct Flags(pub u16)`. -/
structure Flags where
  val : Nat
deriving DecidableEq, Repr

/-- `Flags::contains`: `self.0 & other.0 == other.0`. -/
def Flags.contains (a b : Flags) : Bool :=
  a.val &&& b.val == b.val

/-- `Flags::and`: `Flags(self.0 | other.0)`. -/
def Flags.and (a b : Flags) : Flags :=
  ⟨a.val ||| b.val⟩

/-- Termination code for use with GoAway frames. -/
def CODE_TERM : Nat := 0

/-- Protocol error code for use with GoAway frames. -/
def ECODE_PROTO : Nat := 1

/-- Internal error code for use with GoAway frames. -/
def ECODE_INTERNAL : Nat := 2

def SYN : Flags := ⟨1⟩

def ACK : Flags := ⟨2⟩

def FIN : Flags := ⟨4⟩

def RST : Flags := ⟨8⟩

/-- Modelled from the spec: `stream::Id` lives in the stream module, which
is not part of the given sources.  The spec describes it as an externally
defined 32-bit logical stream identifier whose value 0 is reserved for
connection scope; the header module itself builds `stream::Id::new(0)`
for Ping and GoAway frames, so the type admits every 32-bit value. -/
structure StreamId where
  val : Nat
deriving DecidableEq, Repr

/-- Modelled from the spec: constructor of a stream id from a raw 32-bit
value, as used by `Header::ping` / `Header::go_away` (`stream::Id::new`). -/
def StreamId.new (n : Nat) : StreamId :=
  ⟨n⟩

/-- `struct RawHeader`: the untyped wire representation. -/
structure RawHeader where
  version : Version
  typ : Typ
  flags : Flags
  stream_id : StreamId
  length : Len
deriving DecidableEq, Repr

/-- Modelled from the spec: compile-time kind marker `Data` imported from
the frame module (`super`), carrying no data. -/
structure Data
deriving DecidableEq

/-- Modelled from the spec: compile-time kind marker `WindowUpdate`. -/
structure WindowUpdate
deriving DecidableEq

/-- Modelled from the spec: compile-time kind marker `Ping`. -/
structure Ping
deriving DecidableEq

/-- Modelled from the spec: compile-time kind marker `GoAway`. -/
structure GoAway
deriving DecidableEq

/-- `struct Header<T>`: a `RawHeader` plus a phantom compile-time kind. -/
structure Header (T : Type) where
  raw_header : RawHeader
deriving DecidableEq, Repr

/-- `Header::<T>::assert`: trusted, unchecked reconstruction from a raw
header, for any asserted kind `T`. -/
def Header.assert {T : Type} (raw : RawHeader) : Header T :=
  ⟨raw⟩

/-- `Header::<T>::id`. -/
def Header.id {T : Type} (h : Header T) : StreamId :=
  h.raw_header.stream_id

/-- `Header::<T>::flags`. -/
def Header.flags {T : Type} (h : Header T) : Flags :=
  h.raw_header.flags

/-- `Header::<T>::into_raw`. -/
def Header.into_raw {T : Type} (h : Header T) : RawHeader :=
  h.raw_header

/-- `Header::<Data>::data`. -/
def Header.data (id : StreamId) (len : Nat) : Header Data :=
  ⟨⟨⟨0⟩, Typ.data, ⟨0⟩, id, ⟨len⟩⟩⟩

/-- `Header::<Data>::syn`: `self.raw_header.flags.0 |= SYN.0`. -/
def Data.syn (h : Header Data) : Header Data :=
  ⟨{ h.raw_header with flags := ⟨h.raw_header.flags.val ||| SYN.val⟩ }⟩

/-- `Header::<Data>::ack`. -/
def Data.ack (h : Header Data) : Header Data :=
  ⟨{ h.raw_header with flags := ⟨h.raw_header.flags.val ||| ACK.val⟩ }⟩

/-- `Header::<Data>::fin`. -/
def Data.fin (h : Header Data) : Header Data :=
  ⟨{ h.raw_header with flags := ⟨h.raw_header.flags.val ||| FIN.val⟩ }⟩

/-- `Header::<Data>::rst`. -/
def Data.rst (h : Header Data) : Header Data :=
  ⟨{ h.raw_header with flags := ⟨h.raw_header.flags.val ||| RST.val⟩ }⟩

/-- `Header::<Data>::len`. -/
def Header.len (h : Header Data) : Nat :=
  h.raw_header.length.val

/-- `Header::<WindowUpdate>::window_update`. -/
def Header.window_update (id : StreamId) (credit : Nat) : Header WindowUpdate :=
  ⟨⟨⟨0⟩, Typ.windowUpdate, ⟨0⟩, id, ⟨credit⟩⟩⟩

/-- `Header::<WindowUpdate>::syn`. -/
def WindowUpdate.syn (h : Header WindowUpdate) : Header WindowUpdate :=
  ⟨{ h.raw_header with flags := ⟨h.raw_header.flags.val ||| SYN.val⟩ }⟩

/-- `Header::<WindowUpdate>::ack`. -/
def WindowUpdate.ack (h : Header WindowUpdate) : Header WindowUpdate :=
  ⟨{ h.raw_header with flags := ⟨h.raw_header.flags.val ||| ACK.val⟩ }⟩

/-- `Header::<WindowUpdate>::fin`. -/
def WindowUpdate.fin (h : Header WindowUpdate) : Header WindowUpdate :=
  ⟨{ h.raw_header with flags := ⟨h.raw_header.flags.val ||| FIN.val⟩ }⟩

/-- `Header::<WindowUpdate>::rst`. -/
def WindowUpdate.rst (h : Header WindowUpdate) : Header WindowUpdate :=
  ⟨{ h.raw_header with flags := ⟨h.raw_header.flags.val ||| RST.val⟩ }⟩

/-- `Header::<WindowUpdate>::credit`. -/
def Header.credit (h : Header WindowUpdate) : Nat :=
  h.raw_header.length.val

/-- `Header::<Ping>::ping`. -/
def Header.ping (nonce : Nat) : Header Ping :=
  ⟨⟨⟨0⟩, Typ.ping, ⟨0⟩, StreamId.new 0, ⟨nonce⟩⟩⟩

/-- `Header::<Ping>::syn`. -/
def Ping.syn (h : Header Ping) : Header Ping :=
  ⟨{ h.raw_header with flags := ⟨h.raw_header.flags.val ||| SYN.val⟩ }⟩

/-- `Header::<Ping>::ack`. -/
def Ping.ack (h : Header Ping) : Header Ping :=
  ⟨{ h.raw_header with flags := ⟨h.raw_header.flags.val ||| ACK.val⟩ }⟩

/-- `Header::<Ping>::nonce`. -/
def Header.nonce (h : Header Ping) : Nat :=
  h.raw_header.length.val

/-- `Header::<GoAway>::go_away`. -/
def Header.go_away (error_code : Nat) : Header GoAway :=
  ⟨⟨⟨0⟩, Typ.goAway, ⟨0⟩, StreamId.new 0, ⟨error_code⟩⟩⟩

/-- `Header::<GoAway>::error_code`. -/
def Header.error_code (h : Header GoAway) : Nat :=
  h.raw_header.length.val

/-- A name for one flag-setter call on a kind that offers all four setters
(Data and WindowUpdate), so that finite sequences of calls can be
quantified over as lists. -/
inductive Setter where
  | syn
  | ack
  | fin
  | rst
deriving DecidableEq, Repr

/-- The flag constant a setter ORs into the header. -/
def Setter.flag : Setter → Flags
  | .syn => SYN
  | .ack => ACK
  | .fin => FIN
  | .rst => RST

/-- Run one named setter call on a Data header. -/
def Setter.applyData (s : Setter) (h : Header Data) : Header Data :=
  match s with
  | .syn => Data.syn h
  | .ack => Data.ack h
  | .fin => Data.fin h
  | .rst => Data.rst h

/-- Run one named setter call on a WindowUpdate header. -/
def Setter.applyWU (s : Setter) (h : Header WindowUpdate) : Header WindowUpdate :=
  match s with
  | .syn => WindowUpdate.syn h
  | .ack => WindowUpdate.ack h
  | .fin => WindowUpdate.fin h
  | .rst => WindowUpdate.rst h

/-- Run a sequence of setter calls, left to right, on a Data header. -/
def applySettersData (l : List Setter) (h : Header Data) : Header Data :=
  l.foldl (fun h s => s.applyData h) h

/-- Run a sequence of setter calls, left to right, on a WindowUpdate
header. -/
def applySettersWU (l : List Setter) (h : Header WindowUpdate) : Header WindowUpdate :=
  l.foldl (fun h s => s.applyWU h) h

/-- A name for one flag-setter call on Ping, which offers only `syn` and
`ack`. -/
inductive PingSetter where
  | syn
  | ack
deriving DecidableEq, Repr

/-- The flag constant a Ping setter ORs into the header. -/
def PingSetter.flag : PingSetter → Flags
  | .syn => SYN
  | .ack => ACK

/-- Run one named setter call on a Ping header. -/
def PingSetter.applyPing (s : PingSetter) (h : Header Ping) : Header Ping :=
  match s with
  | .syn => Ping.syn h
  | .ack => Ping.ack h

/-- Run a sequence of setter calls, left to right, on a Ping header. -/
def applySettersPing (l : List PingSetter) (h : Header Ping) : Header Ping :=
  l.foldl (fun h s => s.applyPing h) h

/-- Bitwise OR of the flags of a list of Data/WindowUpdate setter calls. -/
def orFlags (l : List Setter) : Nat :=
  l.foldr (fun s acc => (Setter.flag s).val ||| acc) 0

/-- Bitwise OR of the flags of a list of Ping setter calls. -/
def orFlagsPing (l : List PingSetter) : Nat :=
  l.foldr (fun s acc => (PingSetter.flag s).val ||| acc) 0

theorem applySettersData_raw (l : List Setter) (h : Header Data) :
    applySettersData l h =
      ⟨{ h.raw_header with flags := ⟨h.raw_header.flags.val ||| orFlags l⟩ }⟩ := by
  induction l generalizing h with
  | nil =>
      simp [applySettersData, orFlags]
  | cons s l ih =>
      have hs : s.applyData h =
          ⟨{ h.raw_header with flags := ⟨h.raw_header.flags.val ||| (Setter.flag s).val⟩ }⟩ := by
        cases s <;> rfl
      have : applySettersData (s :: l) h = applySettersData l (s.applyData h) := rfl
      rw [this, ih, hs]
      simp [orFlags, Nat.lor_assoc]

theorem applySettersWU_raw (l : List Setter) (h : Header WindowUpdate) :
    applySettersWU l h =
      ⟨{ h.raw_header with flags := ⟨h.raw_header.flags.val ||| orFlags l⟩ }⟩ := by
  induction l generalizing h with
  | nil =>
      simp [applySettersWU, orFlags]
  | cons s l ih =>
      have hs : s.applyWU h =
          ⟨{ h.raw_header with flags := ⟨h.raw_header.flags.val ||| (Setter.flag s).val⟩ }⟩ := by
        cases s <;> rfl
      have : applySettersWU (s :: l) h = applySettersWU l (s.applyWU h) := rfl
      rw [this, ih, hs]
      simp [orFlags, Nat.lor_assoc]

theorem applySettersPing_raw (l : List PingSetter) (h : Header Ping) :
    applySettersPing l h =
      ⟨{ h.raw_header with flags := ⟨h.raw_header.flags.val ||| orFlagsPing l⟩ }⟩ := by
  induction l generalizing h with
  | nil =>
      simp [applySettersPing, orFlagsPing]
  | cons s l ih =>
      have hs : s.applyPing h =
          ⟨{ h.raw_header with flags := ⟨h.raw_header.flags.val ||| (PingSetter.flag s).val⟩ }⟩ := by
        cases s <;> rfl
      have : applySettersPing (s :: l) h = applySettersPing l (s.applyPing h) := rfl
      rw [this, ih, hs]
      simp [orFlagsPing, Nat.lor_assoc]

theorem land_two_pow_eq_iff (a k : Nat) :
    a &&& 2 ^ k = 2 ^ k ↔ a.testBit k = true := by
  constructor
  · intro h
    have h2 := congrArg (fun x => x.testBit k) h
    simpa [Nat.testBit_land, Nat.testBit_two_pow_self] using h2
  · intro h
    apply Nat.eq_of_testBit_eq
    intro j
    rcases eq_or_ne j k with rfl | hj
    · simp [Nat.testBit_land, Nat.testBit_two_pow_self, h]
    · simp [Nat.testBit_land, Nat.testBit_two_pow_of_ne (Ne.symm hj)]

theorem contains_pow_iff (a : Flags) (k : Nat) (f : Flags) (hf : f.val = 2 ^ k) :
    a.contains f = true ↔ a.val.testBit k = true := by
  unfold Flags.contains
  rw [hf, beq_iff_eq]
  exact land_two_pow_eq_iff a.val k

theorem contains_iff_subset (a b : Flags) :
    a.contains b = true ↔ ∀ k, b.val.testBit k = true → a.val.testBit k = true := by
  unfold Flags.contains
  rw [beq_iff_eq]
  constructor
  · intro h k hb
    have h2 := congrArg (fun x => x.testBit k) h
    simp only [Nat.testBit_land] at h2
    rw [hb] at h2
    simpa using h2
  · intro h
    apply Nat.eq_of_testBit_eq
    intro j
    rw [Nat.testBit_land]
    cases hb : b.val.testBit j
    · simp
    · simp [h j hb]

/-- The bit position of each setter's flag constant. -/
def Setter.bit : Setter → Nat
  | .syn => 0
  | .ack => 1
  | .fin => 2
  | .rst => 3

theorem Setter.flag_val (s : Setter) : (Setter.flag s).val = 2 ^ s.bit := by
  cases s <;> rfl

theorem Setter.flag_testBit_self (s : Setter) :
    (Setter.flag s).val.testBit s.bit = true := by
  cases s <;> decide

/-- The bit position of each Ping setter's flag constant. -/
def PingSetter.bit : PingSetter → Nat
  | .syn => 0
  | .ack => 1

theorem PingSetter.pingFlag_val (s : PingSetter) : (PingSetter.flag s).val = 2 ^ s.bit := by
  cases s <;> rfl

theorem PingSetter.pingFlag_testBit_self (s : PingSetter) :
    (PingSetter.flag s).val.testBit s.bit = true := by
  cases s <;> decide

theorem orFlags_testBit (l : List Setter) (k : Nat) :
    (orFlags l).testBit k = l.any (fun s => (Setter.flag s).val.testBit k) := by
  induction l with
  | nil => simp [orFlags, Nat.zero_testBit]
  | cons s l ih =>
      show ((Setter.flag s).val ||| orFlags l).testBit k = _
      rw [Nat.testBit_lor, ih]
      simp [List.any_cons]

theorem orFlagsPing_testBit (l : List PingSetter) (k : Nat) :
    (orFlagsPing l).testBit k = l.any (fun s => (PingSetter.flag s).val.testBit k) := by
  induction l with
  | nil => simp [orFlagsPing, Nat.zero_testBit]
  | cons s l ih =>
      show ((PingSetter.flag s).val ||| orFlagsPing l).testBit k = _
      rw [Nat.testBit_lor, ih]
      simp [List.any_cons]

theorem any_congr_mem {α : Type} (p : α → Bool) {l₁ l₂ : List α}
    (hmem : ∀ s, s ∈ l₁ ↔ s ∈ l₂) : l₁.any p = l₂.any p := by
  cases h2 : l₂.any p
  · rw [List.any_eq_false] at h2 ⊢
    exact fun x hx => h2 x ((hmem x).mp hx)
  · obtain ⟨x, hx, hp⟩ := List.any_eq_true.mp h2
    exact List.any_eq_true.mpr ⟨x, (hmem x).mpr hx, hp⟩

/-- C1: round-trip — for every frame kind, building a header with its
kind-specific constructor, applying any sequence of its flag setters,
unwrapping with `into_raw` and reconstructing via `assert` yields a header
whose `into_raw` is identical to the original raw header. -/
theorem construct_unwrap_assert_roundtrip :
    (∀ (i : StreamId) (n : Nat) (l : List Setter),
      (Header.assert ((applySettersData l (Header.data i n)).into_raw)
        : Header Data).into_raw = (applySettersData l (Header.data i n)).into_raw) ∧
    (∀ (i : StreamId) (n : Nat) (l : List Setter),
      (Header.assert ((applySettersWU l (Header.window_update i n)).into_raw)
        : Header WindowUpdate).into_raw = (applySettersWU l (Header.window_update i n)).into_raw) ∧
    (∀ (n : Nat) (l : List PingSetter),
      (Header.assert ((applySettersPing l (Header.ping n)).into_raw)
        : Header Ping).into_raw = (applySettersPing l (Header.ping n)).into_raw) ∧
    (∀ c : Nat,
      (Header.assert ((Header.go_away c).into_raw)
        : Header GoAway).into_raw = (Header.go_away c).into_raw) :=
  ⟨fun _ _ _ => rfl, fun _ _ _ => rfl, fun _ _ => rfl, fun _ => rfl⟩

/-- C2: the kind-asserting reconstruction is unchecked and total — for
every raw header and every asserted kind `T`, including when `raw.typ`
does not match `T`, `assert` produces a header whose `into_raw`, `id` and
`flags` are exactly the fields of `raw`. -/
theorem assert_unchecked_verbatim (T : Type) (raw : RawHeader) :
    (Header.assert raw : Header T).into_raw = raw ∧
    (Header.assert raw : Header T).id = raw.stream_id ∧
    (Header.assert raw : Header T).flags = raw.flags :=
  ⟨rfl, rfl, rfl⟩

/-- C3: `Flags.and` is bitwise union — the set bits of `a.and b` are
exactly the bits set in `a` or in `b`. -/
theorem and_is_bitwise_union (a b : Flags) (k : Nat) :
    (a.and b).val.testBit k = (a.val.testBit k || b.val.testBit k) := by
  show (a.val ||| b.val).testBit k = _
  rw [Nat.testBit_lor]

/-- C4: `Flags.contains` is a subset test — `a.contains b` is true iff
every bit set in `b` is set in `a`; in particular the empty set contains
the empty set, `{SYN}` does not contain `{SYN,FIN}`, and `{SYN,FIN}`
contains `{SYN}`. -/
theorem contains_is_subset_test :
    (∀ a b : Flags,
      a.contains b = true ↔ ∀ k, b.val.testBit k = true → a.val.testBit k = true) ∧
    Flags.contains ⟨0⟩ ⟨0⟩ = true ∧
    SYN.contains (SYN.and FIN) = false ∧
    (SYN.and FIN).contains SYN = true :=
  ⟨contains_iff_subset, by decide, by decide, by decide⟩

/-- C5: stream-id policy of the constructors — `ping` and `go_away`
always carry the connection-scope id 0; `data` and `window_update` carry
the given (nonzero) stream id. -/
theorem constructor_id_policy :
    (∀ n : Nat, (Header.ping n).id = StreamId.new 0) ∧
    (∀ c : Nat, (Header.go_away c).id = StreamId.new 0) ∧
    (∀ (i : StreamId) (n : Nat), i.val ≠ 0 → (Header.data i n).id = i) ∧
    (∀ (i : StreamId) (n : Nat), i.val ≠ 0 → (Header.window_update i n).id = i) :=
  ⟨fun _ => rfl, fun _ => rfl, fun _ _ _ => rfl, fun _ _ _ => rfl⟩

theorem constructor_id_policy_witness :
    (Header.ping 99).id = StreamId.new 0 ∧
    (Header.go_away 1).id = StreamId.new 0 ∧
    (StreamId.new 5).val ≠ 0 ∧
    (Header.data (StreamId.new 5) 100).id = StreamId.new 5 ∧
    (Header.window_update (StreamId.new 5) 7).id = StreamId.new 5 :=
  ⟨constructor_id_policy.1 99, constructor_id_policy.2.1 1, by decide,
    constructor_id_policy.2.2.1 (StreamId.new 5) 100 (by decide),
    constructor_id_policy.2.2.2 (StreamId.new 5) 7 (by decide)⟩

/-- C6: kind-true length-slot aliasing — each kind-specific reader
returns exactly the value passed to its kind's constructor. -/
theorem length_slot_aliasing (i : StreamId) (n : Nat) :
    (Header.data i n).len = n ∧
    (Header.window_update i n).credit = n ∧
    (Header.ping n).nonce = n ∧
    (Header.go_away n).error_code = n :=
  ⟨rfl, rfl, rfl, rfl⟩

/-- C8: constructor initialization — every kind-specific constructor
produces a header with version 0, the matching typ discriminant, and the
empty flag set. -/
theorem constructor_initialization (i : StreamId) (n c m : Nat) :
    ((Header.data i n).raw_header.version = ⟨0⟩ ∧
     (Header.data i n).raw_header.typ = Typ.data ∧
     (Header.data i n).raw_header.flags = ⟨0⟩) ∧
    ((Header.window_update i n).raw_header.version = ⟨0⟩ ∧
     (Header.window_update i n).raw_header.typ = Typ.windowUpdate ∧
     (Header.window_update i n).raw_header.flags = ⟨0⟩) ∧
    ((Header.ping m).raw_header.version = ⟨0⟩ ∧
     (Header.ping m).raw_header.typ = Typ.ping ∧
     (Header.ping m).raw_header.flags = ⟨0⟩) ∧
    ((Header.go_away c).raw_header.version = ⟨0⟩ ∧
     (Header.go_away c).raw_header.typ = Typ.goAway ∧
     (Header.go_away c).raw_header.flags = ⟨0⟩) :=
  ⟨⟨rfl, rfl, rfl⟩, ⟨rfl, rfl, rfl⟩, ⟨rfl, rfl, rfl⟩, ⟨rfl, rfl, rfl⟩⟩

/-- C9: frame property of the flag setters — any sequence of flag-setter
calls changes only the flags field; version, typ, stream_id and length are
untouched. -/
theorem flag_setters_only_touch_flags :
    (∀ (h : Header Data) (l : List Setter),
      (applySettersData l h).raw_header.version = h.raw_header.version ∧
      (applySettersData l h).raw_header.typ = h.raw_header.typ ∧
      (applySettersData l h).raw_header.stream_id = h.raw_header.stream_id ∧
      (applySettersData l h).raw_header.length = h.raw_header.length) ∧
    (∀ (h : Header WindowUpdate) (l : List Setter),
      (applySettersWU l h).raw_header.version = h.raw_header.version ∧
      (applySettersWU l h).raw_header.typ = h.raw_header.typ ∧
      (applySettersWU l h).raw_header.stream_id = h.raw_header.stream_id ∧
      (applySettersWU l h).raw_header.length = h.raw_header.length) ∧
    (∀ (h : Header Ping) (l : List PingSetter),
      (applySettersPing l h).raw_header.version = h.raw_header.version ∧
      (applySettersPing l h).raw_header.typ = h.raw_header.typ ∧
      (applySettersPing l h).raw_header.stream_id = h.raw_header.stream_id ∧
      (applySettersPing l h).raw_header.length = h.raw_header.length) := by
  refine ⟨fun h l => ?_, fun h l => ?_, fun h l => ?_⟩
  · rw [applySettersData_raw]
    exact ⟨rfl, rfl, rfl, rfl⟩
  · rw [applySettersWU_raw]
    exact ⟨rfl, rfl, rfl, rfl⟩
  · rw [applySettersPing_raw]
    exact ⟨rfl, rfl, rfl, rfl⟩

/-- C10 counterexample: the `data` constructor accepts the reserved
stream id 0 and stores it verbatim, so a Data header with id 0 exists —
refuting "every header produced by the data or window_update constructor
has nonzero id". -/
theorem data_constructor_accepts_zero_id :
    (Header.data (StreamId.new 0) 0).id.val = 0 ∧
    (Header.window_update (StreamId.new 0) 0).id.val = 0 :=
  ⟨rfl, rfl⟩

/-- C10 (amended): the `data` and `window_update` constructors store the
given id verbatim, so the produced header carries a nonzero stream id
exactly when the caller supplies a nonzero id; the constructors themselves
do not reject id 0. -/
theorem stream_scoped_id_nonzero_of_nonzero (i : StreamId) (n : Nat) (h : i.val ≠ 0) :
    (Header.data i n).id.val ≠ 0 ∧ (Header.window_update i n).id.val ≠ 0 :=
  ⟨h, h⟩

theorem stream_scoped_id_nonzero_of_nonzero_witness :
    (StreamId.new 5).val ≠ 0 ∧
    (Header.data (StreamId.new 5) 100).id.val ≠ 0 ∧
    (Header.window_update (StreamId.new 5) 7).id.val ≠ 0 :=
  ⟨by decide,
    (stream_scoped_id_nonzero_of_nonzero (StreamId.new 5) 100 (by decide)).1,
    (stream_scoped_id_nonzero_of_nonzero (StreamId.new 5) 7 (by decide)).2⟩

theorem orFlags_congr_mem {l₁ l₂ : List Setter} (hmem : ∀ s, s ∈ l₁ ↔ s ∈ l₂) :
    orFlags l₁ = orFlags l₂ := by
  apply Nat.eq_of_testBit_eq
  intro k
  rw [orFlags_testBit, orFlags_testBit]
  exact any_congr_mem _ hmem

theorem orFlagsPing_congr_mem {l₁ l₂ : List PingSetter} (hmem : ∀ s, s ∈ l₁ ↔ s ∈ l₂) :
    orFlagsPing l₁ = orFlagsPing l₂ := by
  apply Nat.eq_of_testBit_eq
  intro k
  rw [orFlagsPing_testBit, orFlagsPing_testBit]
  exact any_congr_mem _ hmem

theorem orFlags_testBit_of_mem {l : List Setter} {s : Setter} (hs : s ∈ l) :
    (orFlags l).testBit s.bit = true := by
  rw [orFlags_testBit]
  exact List.any_eq_true.mpr ⟨s, hs, s.flag_testBit_self⟩

theorem orFlagsPing_testBit_of_mem {l : List PingSetter} {s : PingSetter} (hs : s ∈ l) :
    (orFlagsPing l).testBit s.bit = true := by
  rw [orFlagsPing_testBit]
  exact List.any_eq_true.mpr ⟨s, hs, s.pingFlag_testBit_self⟩

/-- C7: flag monotonicity and order-independence — on every kind that
offers flag setters (Data, WindowUpdate, Ping), after any finite sequence
of setter calls the flag set contains every flag whose setter was called
at least once, and the resulting header depends only on the set of setters
called, not on the order or multiplicity of the calls. -/
theorem flag_setters_monotone_and_order_free :
    (∀ (h : Header Data) (l : List Setter) (s : Setter), s ∈ l →
      ((applySettersData l h).flags).contains s.flag = true) ∧
    (∀ (h : Header Data) (l₁ l₂ : List Setter), (∀ s, s ∈ l₁ ↔ s ∈ l₂) →
      applySettersData l₁ h = applySettersData l₂ h) ∧
    (∀ (h : Header WindowUpdate) (l : List Setter) (s : Setter), s ∈ l →
      ((applySettersWU l h).flags).contains s.flag = true) ∧
    (∀ (h : Header WindowUpdate) (l₁ l₂ : List Setter), (∀ s, s ∈ l₁ ↔ s ∈ l₂) →
      applySettersWU l₁ h = applySettersWU l₂ h) ∧
    (∀ (h : Header Ping) (l : List PingSetter) (s : PingSetter), s ∈ l →
      ((applySettersPing l h).flags).contains s.flag = true) ∧
    (∀ (h : Header Ping) (l₁ l₂ : List PingSetter), (∀ s, s ∈ l₁ ↔ s ∈ l₂) →
      applySettersPing l₁ h = applySettersPing l₂ h) := by
  refine ⟨fun h l s hs => ?_, fun h l₁ l₂ hm => ?_, fun h l s hs => ?_,
    fun h l₁ l₂ hm => ?_, fun h l s hs => ?_, fun h l₁ l₂ hm => ?_⟩
  · rw [applySettersData_raw]
    rw [contains_pow_iff _ s.bit s.flag s.flag_val]
    show (h.raw_header.flags.val ||| orFlags l).testBit s.bit = true
    rw [Nat.testBit_lor, orFlags_testBit_of_mem hs, Bool.or_true]
  · rw [applySettersData_raw, applySettersData_raw, orFlags_congr_mem hm]
  · rw [applySettersWU_raw]
    rw [contains_pow_iff _ s.bit s.flag s.flag_val]
    show (h.raw_header.flags.val ||| orFlags l).testBit s.bit = true
    rw [Nat.testBit_lor, orFlags_testBit_of_mem hs, Bool.or_true]
  · rw [applySettersWU_raw, applySettersWU_raw, orFlags_congr_mem hm]
  · rw [applySettersPing_raw]
    rw [contains_pow_iff _ s.bit s.flag s.pingFlag_val]
    show (h.raw_header.flags.val ||| orFlagsPing l).testBit s.bit = true
    rw [Nat.testBit_lor, orFlagsPing_testBit_of_mem hs, Bool.or_true]
  · rw [applySettersPing_raw, applySettersPing_raw, orFlagsPing_congr_mem hm]

theorem flag_setters_monotone_and_order_free_witness :
    ((applySettersData [Setter.syn, Setter.fin] (Header.data (StreamId.new 5) 100)).flags).contains
      (Setter.flag Setter.syn) = true ∧
    applySettersData [Setter.syn, Setter.fin, Setter.syn] (Header.data (StreamId.new 5) 100)
      = applySettersData [Setter.fin, Setter.syn] (Header.data (StreamId.new 5) 100) ∧
    ((applySettersWU [Setter.rst] (Header.window_update (StreamId.new 5) 7)).flags).contains
      (Setter.flag Setter.rst) = true ∧
    applySettersWU [Setter.ack, Setter.ack] (Header.window_update (StreamId.new 5) 7)
      = applySettersWU [Setter.ack] (Header.window_update (StreamId.new 5) 7) ∧
    ((applySettersPing [PingSetter.ack] (Header.ping 99)).flags).contains
      (PingSetter.flag PingSetter.ack) = true ∧
    applySettersPing [PingSetter.syn, PingSetter.ack] (Header.ping 99)
      = applySettersPing [PingSetter.ack, PingSetter.syn] (Header.ping 99) :=
  ⟨flag_setters_monotone_and_order_free.1 _ _ Setter.syn (by decide),
    flag_setters_monotone_and_order_free.2.1 _ _ _ (by intro s; cases s <;> decide),
    flag_setters_monotone_and_order_free.2.2.1 _ _ Setter.rst (by decide),
    flag_setters_monotone_and_order_free.2.2.2.1 _ _ _ (by intro s; cases s <;> decide),
    flag_setters_monotone_and_order_free.2.2.2.2.1 _ _ PingSetter.ack (by decide),
    flag_setters_monotone_and_order_free.2.2.2.2.2 _ _ _ (by intro s; cases s <;> decide)⟩
